import Mathlib

/-!
Verification of the webdriverless core protocol layer.

The development embeds the three source modules of the repository:
the protocol module (command construction, reply decoding, the
session lifecycle and the single public entry point), the browser
wrapper and the tab wrapper. JSON values are modelled by an inductive
type; the reply received for each sent command is scripted as a list
consumed in order, which captures the strict request/response
alternation of the wire protocol. Runtime exceptions of the host
language (decode failures, key errors, assertion failures) are made
explicit through an error type, so that every operation returns an
Except value.
-/

namespace Webdriverless

/-- A JSON value: null, boolean, integer number, string, array or
object. Objects are association lists in insertion order, mirroring
host-language mappings. -/
inductive Json where
  | null
  | bool (b : Bool)
  | num (n : Int)
  | str (s : String)
  | arr (elems : List Json)
  | obj (fields : List (String × Json))

/-- Host-language runtime exceptions that the embedded code can raise. -/
inductive PyError where
  | jsonDecodeError
  | keyError (key : String)
  | attributeError
  | typeError
  | assertionError
  | connectionClosed
deriving Repr, DecidableEq

/-- One inbound reply on the wire: an empty (falsy) frame, a frame that
is not valid JSON, or a frame that parses to a JSON value. -/
inductive Reply where
  | empty
  | malformed
  | parsed (j : Json)

/-- Key lookup in an object field list, first match wins. -/
def lookupFields : List (String × Json) → String → Option Json
  | [], _ => none
  | (k, v) :: rest, key => if k = key then some v else lookupFields rest key

/-- Host-language truthiness of a JSON value: null, false, zero, the
empty string, the empty array and the empty object are falsy. -/
def pyTruthy : Json → Bool
  | .null => false
  | .bool b => b
  | .num n => n != 0
  | .str s => !s.isEmpty
  | .arr elems => !elems.isEmpty
  | .obj fields => !fields.isEmpty

/-- Host-language iteration over a JSON value: arrays yield their
elements, strings yield their characters as one-character strings,
objects yield their keys; other values are not iterable. -/
def pyIter : Json → Except PyError (List Json)
  | .arr elems => .ok elems
  | .str s => .ok (s.toList.map (fun c => Json.str (String.mk [c])))
  | .obj fields => .ok (fields.map (fun kv => Json.str kv.1))
  | _ => .error .typeError

/-- State of one open connection: the scripted replies still pending,
the commands sent so far (in order) and the log records emitted so far
(each an error kind and a message). -/
structure WireState where
  pending : List Reply
  sent : List Json
  logs : List (Json × Json)

/-- Embedding of the source function that builds the outbound command
envelope: identifier fixed to 1, method and parameters carried over,
with a missing or falsy parameters argument replaced by the empty
object. -/
def makeCommand (method : String) (params : Option Json) : Json :=
  .obj [("id", .num 1), ("method", .str method),
    ("params", match params with
      | none => .obj []
      | some p => if pyTruthy p then p else .obj [])]

/-- Decoding of a parsed inbound frame, following the source: a
success-tagged object yields its result field; an error-tagged object
logs its error kind and message and yields no result; any other
discriminator yields no result silently; a non-object frame raises an
attribute error, and a tagged object missing a required field raises a
key error. -/
def decodeParsed (j : Json) (st : WireState) :
    Except PyError (Option Json) × WireState :=
  match j with
  | .obj fields =>
    match lookupFields fields "type" with
    | some (.str "success") =>
      match lookupFields fields "result" with
      | some r => (.ok (some r), st)
      | none => (.error (.keyError "result"), st)
    | some (.str "error") =>
      match lookupFields fields "error" with
      | some e =>
        match lookupFields fields "message" with
        | some m => (.ok none, { st with logs := st.logs ++ [(e, m)] })
        | none => (.error (.keyError "message"), st)
      | none => (.error (.keyError "error"), st)
    | _ => (.ok none, st)
  | _ => (.error .attributeError, st)

/-- Embedding of the source function that sends one command and decodes
the one reply: the command envelope is sent first, then the next
scripted reply is consumed; an empty frame yields no result, a frame
that is not valid JSON raises a decode error, and a parsed frame is
decoded. Receiving with no reply pending models a closed connection. -/
def sendCommand (st : WireState) (method : String) (params : Option Json) :
    Except PyError (Option Json) × WireState :=
  let st1 : WireState := { st with sent := st.sent ++ [makeCommand method params] }
  match st1.pending with
  | [] => (.error .connectionClosed, st1)
  | r :: rest =>
    let st2 : WireState := { st1 with pending := rest }
    match r with
    | .empty => (.ok none, st2)
    | .malformed => (.error .jsonDecodeError, st2)
    | .parsed j => decodeParsed j st2

/-- The parameters object sent by session creation. -/
def capsParams : Json := .obj [("capabilities", .obj [])]

/-- Embedding of the private session-creation helper: sends the
session.new command; on a truthy decoded result it subscripts the
sessionId field (raising on a truthy non-object or a missing key), and
on no result or a falsy result it returns nothing. -/
def sessionNew (st : WireState) : Except PyError (Option Json) × WireState :=
  match sendCommand st "session.new" (some capsParams) with
  | (.error e, st1) => (.error e, st1)
  | (.ok none, st1) => (.ok none, st1)
  | (.ok (some response), st1) =>
    if pyTruthy response then
      match response with
      | .obj fields =>
        match lookupFields fields "sessionId" with
        | some sid => (.ok (some sid), st1)
        | none => (.error (.keyError "sessionId"), st1)
      | _ => (.error .typeError, st1)
    else (.ok none, st1)

/-- Embedding of the private session-termination helper: sends the
session.end command with empty parameters and reports whether any
result (truthy or not) came back. -/
def sessionEnd (st : WireState) : Except PyError Bool × WireState :=
  match sendCommand st "session.end" (some (.obj [])) with
  | (.error e, st1) => (.error e, st1)
  | (.ok o, st1) => (.ok o.isSome, st1)

/-- Embedding of the context-manager entry of the session: asserts that
session creation produced a truthy session identifier, raising an
assertion failure otherwise. -/
def sessionEnter (st : WireState) : Except PyError Unit × WireState :=
  match sessionNew st with
  | (.error e, st1) => (.error e, st1)
  | (.ok none, st1) => (.error .assertionError, st1)
  | (.ok (some sid), st1) =>
    if pyTruthy sid then (.ok (), st1) else (.error .assertionError, st1)

/-- Embedding of the context-manager exit of the session: asserts that
session termination reported a result. -/
def sessionExit (st : WireState) : Except PyError Unit × WireState :=
  match sessionEnd st with
  | (.error e, st1) => (.error e, st1)
  | (.ok b, st1) => if b then (.ok (), st1) else (.error .assertionError, st1)

/-- The session lifecycle around one method invocation, exactly as the
entry point nests its context managers: enter the session, invoke the
method once, exit the session. An exception from the invocation still
runs the session exit; an exception raised by the exit supersedes the
pending one, and otherwise the invocation outcome is returned. -/
def executeCore (method : String) (params : Option Json) (replies : List Reply) :
    Except PyError (Option Json) × WireState :=
  match sessionEnter ⟨replies, [], []⟩ with
  | (.error e, st1) => (.error e, st1)
  | (.ok _, st1) =>
    match sendCommand st1 method params with
    | (r, st2) =>
      match sessionExit st2 with
      | (.error e2, st3) => (.error e2, st3)
      | (.ok _, st3) => (r, st3)

/-- The URL the entry point connects to: the host is written into the
source as localhost, only the port is taken from the caller. -/
def connectUrl (port : Nat) : String :=
  "ws://localhost:" ++ toString port ++ "/session"

/-- Observable outcome of one call to the public entry point: the URL
connected to, the returned result or raised exception, the commands
sent and the log records emitted. -/
structure ExecOutcome where
  url : String
  result : Except PyError (Option Json)
  sent : List Json
  logs : List (Json × Json)

/-- Embedding of the public entry point: connect to the fixed-host URL
for the given port, run one session-wrapped invocation of the method
and close the connection. -/
def execute (port : Nat) (method : String) (params : Option Json)
    (replies : List Reply) : ExecOutcome :=
  ⟨connectUrl port, (executeCore method params replies).1,
    (executeCore method params replies).2.sent,
    (executeCore method params replies).2.logs⟩

/-- A tab handle: the port it talks through, its context identifier and
its tracked URL. Identifier and URL are JSON values, since the host
language does not constrain what the decoded reply stores in them. -/
structure Tab where
  port : Nat
  id : Json
  url : Json

/-- The parameters object sent by tab navigation. -/
def navParams (tab : Tab) (url : String) : Json :=
  .obj [("url", .str url), ("context", tab.id), ("wait", .str "complete")]

/-- Embedding of tab navigation: invokes browsingContext.navigate; on a
truthy result it stores the url field of the result in the tab and
reports success, on no result or a falsy result it reports failure and
leaves the tab unchanged. -/
def Tab.navigate (tab : Tab) (url : String) (replies : List Reply) :
    Except PyError (Bool × Tab) :=
  match (execute tab.port "browsingContext.navigate"
      (some (navParams tab url)) replies).result with
  | .error e => .error e
  | .ok none => .ok (false, tab)
  | .ok (some result) =>
    if pyTruthy result then
      match result with
      | .obj fields =>
        match lookupFields fields "url" with
        | some u => .ok (true, { tab with url := u })
        | none => .error (.keyError "url")
      | _ => .error .typeError
    else .ok (false, tab)

/-- The parameters object sent by tab reload. -/
def reloadParams (tab : Tab) : Json :=
  .obj [("context", tab.id), ("wait", .str "complete")]

/-- Embedding of tab reload: invokes browsingContext.reload; on a
truthy result it stores the url field of the result in the tab and
reports success, otherwise it reports failure and leaves the tab
unchanged. -/
def Tab.reload (tab : Tab) (replies : List Reply) :
    Except PyError (Bool × Tab) :=
  match (execute tab.port "browsingContext.reload"
      (some (reloadParams tab)) replies).result with
  | .error e => .error e
  | .ok none => .ok (false, tab)
  | .ok (some response) =>
    if pyTruthy response then
      match response with
      | .obj fields =>
        match lookupFields fields "url" with
        | some u => .ok (true, { tab with url := u })
        | none => .error (.keyError "url")
      | _ => .error .typeError
    else .ok (false, tab)

/-- One entry of the contexts list turned into a tab: subscripting the
context and url fields as the source comprehension does, raising on a
non-object entry or a missing key. -/
def tabOfContext (port : Nat) (entry : Json) : Except PyError Tab :=
  match entry with
  | .obj fields =>
    match lookupFields fields "context" with
    | some c =>
      match lookupFields fields "url" with
      | some u => .ok ⟨port, c, u⟩
      | none => .error (.keyError "url")
    | none => .error (.keyError "context")
  | _ => .error .typeError

/-- The comprehension over the contexts list: one tab per entry, in
order, stopping at the first raising entry. -/
def tabsOfContexts (port : Nat) : List Json → Except PyError (List Tab)
  | [] => .ok []
  | entry :: rest =>
    match tabOfContext port entry with
    | .error e => .error e
    | .ok t =>
      match tabsOfContexts port rest with
      | .error e => .error e
      | .ok ts => .ok (t :: ts)

/-- Embedding of the browser tab listing: invokes
browsingContext.getTree with maxDepth 1; on a truthy result it
subscripts the contexts field and builds one tab per entry, and on no
result or a falsy result it returns the empty list. -/
def Browser.get_tabs (port : Nat) (replies : List Reply) :
    Except PyError (List Tab) :=
  match (execute port "browsingContext.getTree"
      (some (.obj [("maxDepth", .num 1)])) replies).result with
  | .error e => .error e
  | .ok none => .ok []
  | .ok (some response) =>
    if pyTruthy response then
      match response with
      | .obj fields =>
        match lookupFields fields "contexts" with
        | some cs =>
          match pyIter cs with
          | .error e => .error e
          | .ok entries => tabsOfContexts port entries
        | none => .error (.keyError "contexts")
      | _ => .error .typeError
    else .ok []

/-- Embedding of browser tab creation: invokes browsingContext.create
with type tab; on a truthy result it builds a tab whose identifier is
the context field of the result and whose tracked URL is empty, and on
no result or a falsy result it returns nothing. -/
def Browser.create_tab (port : Nat) (replies : List Reply) :
    Except PyError (Option Tab) :=
  match (execute port "browsingContext.create"
      (some (.obj [("type", .str "tab")])) replies).result with
  | .error e => .error e
  | .ok none => .ok none
  | .ok (some context) =>
    if pyTruthy context then
      match context with
      | .obj fields =>
        match lookupFields fields "context" with
        | some c => .ok (some ⟨port, c, .str ""⟩)
        | none => .error (.keyError "context")
      | _ => .error .typeError
    else .ok none

/-- A reply that makes session creation succeed: a success envelope
whose result carries a non-empty session identifier. -/
def newOkReply : Reply :=
  .parsed (.obj [("type", .str "success"),
    ("result", .obj [("sessionId", .str "sess-1")])])

/-- A reply that makes session termination succeed: a success envelope
with an empty result object. -/
def endOkReply : Reply :=
  .parsed (.obj [("type", .str "success"), ("result", .obj [])])

/-- A well-formed success envelope carrying the given result. -/
def successEnv (r : Json) : Reply :=
  .parsed (.obj [("type", .str "success"), ("result", r)])

/-- A well-formed error envelope carrying the given kind and message. -/
def errorEnv (kind msg : String) : Reply :=
  .parsed (.obj [("type", .str "error"),
    ("error", .str kind), ("message", .str msg)])

/-- A reply whose discriminator is neither success nor error. -/
def weirdReply : Reply := .parsed (.obj [("type", .str "weird")])

/-- Decoding a parsed frame never changes the list of sent commands. -/
theorem decodeParsed_sent (j : Json) (st : WireState) :
    (decodeParsed j st).2.sent = st.sent := by
  unfold decodeParsed
  repeat' split
  all_goals rfl

/-- Sending one command appends exactly that command envelope to the
list of sent commands, whatever the reply. -/
theorem sendCommand_sent (st : WireState) (method : String) (params : Option Json) :
    (sendCommand st method params).2.sent = st.sent ++ [makeCommand method params] := by
  obtain ⟨pending, sent, logs⟩ := st
  cases pending with
  | nil => rfl
  | cons r rest =>
    cases r with
    | empty => rfl
    | malformed => rfl
    | parsed j => exact decodeParsed_sent j _

/-- Session creation sends exactly the session.new command. -/
theorem sessionNew_sent (st : WireState) :
    (sessionNew st).2.sent = st.sent ++ [makeCommand "session.new" (some capsParams)] := by
  have h := sendCommand_sent st "session.new" (some capsParams)
  unfold sessionNew
  repeat' split
  all_goals simp_all

/-- Session termination sends exactly the session.end command. -/
theorem sessionEnd_sent (st : WireState) :
    (sessionEnd st).2.sent = st.sent ++ [makeCommand "session.end" (some (.obj []))] := by
  have h := sendCommand_sent st "session.end" (some (.obj []))
  unfold sessionEnd
  repeat' split
  all_goals simp_all

/-- Session entry sends exactly the session.new command, also when its
assertion fails. -/
theorem sessionEnter_sent (st : WireState) :
    (sessionEnter st).2.sent = st.sent ++ [makeCommand "session.new" (some capsParams)] := by
  have h := sessionNew_sent st
  unfold sessionEnter
  repeat' split
  all_goals simp_all

/-- Session exit sends exactly the session.end command, also when its
assertion fails. -/
theorem sessionExit_sent (st : WireState) :
    (sessionExit st).2.sent = st.sent ++ [makeCommand "session.end" (some (.obj []))] := by
  have h := sessionEnd_sent st
  unfold sessionExit
  repeat' split
  all_goals simp_all

/-- Any run of the session-wrapped invocation sends either the lone
session.new command (when session entry fails) or exactly the sequence
session.new, the method, session.end. -/
theorem executeCore_sent_cases (method : String) (params : Option Json) (replies : List Reply) :
    (executeCore method params replies).2.sent =
        [makeCommand "session.new" (some capsParams)] ∨
    (executeCore method params replies).2.sent =
        [makeCommand "session.new" (some capsParams), makeCommand method params,
          makeCommand "session.end" (some (.obj []))] := by
  unfold executeCore
  rcases h1 : sessionEnter ⟨replies, [], []⟩ with ⟨r1, st1⟩
  have hs1 : st1.sent = [makeCommand "session.new" (some capsParams)] := by
    have h := sessionEnter_sent ⟨replies, [], []⟩
    rw [h1] at h
    simpa using h
  cases r1 with
  | error e =>
    left
    simp [h1, hs1]
  | ok u =>
    rcases h2 : sendCommand st1 method params with ⟨r2, st2⟩
    have hs2 : st2.sent = [makeCommand "session.new" (some capsParams),
        makeCommand method params] := by
      have h := sendCommand_sent st1 method params
      rw [h2, hs1] at h
      simpa using h
    rcases h3 : sessionExit st2 with ⟨r3, st3⟩
    have hs3 : st3.sent = [makeCommand "session.new" (some capsParams),
        makeCommand method params, makeCommand "session.end" (some (.obj []))] := by
      have h := sessionExit_sent st2
      rw [h3, hs2] at h
      simpa using h
    right
    cases r3 with
    | error e2 => simp [h1, h2, h3, hs3]
    | ok u2 => simp [h1, h2, h3, hs3]

/-- A run of the session-wrapped invocation that returns a value (does
not raise) has sent exactly session.new, the method, session.end. -/
theorem executeCore_ok_sent (method : String) (params : Option Json)
    (replies : List Reply) (res : Option Json)
    (h : (executeCore method params replies).1 = .ok res) :
    (executeCore method params replies).2.sent =
      [makeCommand "session.new" (some capsParams), makeCommand method params,
        makeCommand "session.end" (some (.obj []))] := by
  unfold executeCore at h ⊢
  rcases h1 : sessionEnter ⟨replies, [], []⟩ with ⟨r1, st1⟩
  have hs1 : st1.sent = [makeCommand "session.new" (some capsParams)] := by
    have hh := sessionEnter_sent ⟨replies, [], []⟩
    rw [h1] at hh
    simpa using hh
  cases r1 with
  | error e =>
    simp [h1] at h
  | ok u =>
    rcases h2 : sendCommand st1 method params with ⟨r2, st2⟩
    have hs2 : st2.sent = [makeCommand "session.new" (some capsParams),
        makeCommand method params] := by
      have hh := sendCommand_sent st1 method params
      rw [h2, hs1] at hh
      simpa using hh
    rcases h3 : sessionExit st2 with ⟨r3, st3⟩
    have hs3 : st3.sent = [makeCommand "session.new" (some capsParams),
        makeCommand method params, makeCommand "session.end" (some (.obj []))] := by
      have hh := sessionExit_sent st2
      rw [h3, hs2] at hh
      simpa using hh
    cases r3 with
    | error e2 => simp [h1, h2, h3] at h
    | ok u2 => simp [h1, h2, h3, hs3]

/-- A context entry turned into a tab carries the given port, the
context field as identifier and the url field as URL, and the entry was
an object holding both fields. -/
theorem tabOfContext_spec (port : Nat) (entry : Json) (t : Tab)
    (h : tabOfContext port entry = .ok t) :
    t.port = port ∧ ∃ fields, entry = .obj fields ∧
      lookupFields fields "context" = some t.id ∧
      lookupFields fields "url" = some t.url := by
  cases entry with
  | obj fields =>
    unfold tabOfContext at h
    dsimp only at h
    rcases hc : lookupFields fields "context" with _ | c
    · rw [hc] at h
      exact Except.noConfusion h
    · rw [hc] at h
      dsimp only at h
      rcases hu : lookupFields fields "url" with _ | v
      · rw [hu] at h
        exact Except.noConfusion h
      · rw [hu] at h
        simp at h
        subst h
        exact ⟨rfl, fields, rfl, hc, hu⟩
  | null => exact absurd h (by simp [tabOfContext])
  | bool b => exact absurd h (by simp [tabOfContext])
  | num n => exact absurd h (by simp [tabOfContext])
  | str s => exact absurd h (by simp [tabOfContext])
  | arr xs => exact absurd h (by simp [tabOfContext])

/-- When the comprehension over a contexts list succeeds, it yields one
tab per entry, in the same order, each carrying that entry's context
field as identifier, that entry's url field as URL, and the given
port. -/
theorem tabsOfContexts_spec (port : Nat) (es : List Json) (ts : List Tab)
    (h : tabsOfContexts port es = .ok ts) :
    ts.length = es.length ∧
    ∀ i (h1 : i < es.length) (h2 : i < ts.length),
      (ts.get ⟨i, h2⟩).port = port ∧
      ∃ fields, es.get ⟨i, h1⟩ = .obj fields ∧
        lookupFields fields "context" = some (ts.get ⟨i, h2⟩).id ∧
        lookupFields fields "url" = some (ts.get ⟨i, h2⟩).url := by
  induction es generalizing ts with
  | nil =>
    unfold tabsOfContexts at h
    simp at h
    subst h
    refine ⟨rfl, ?_⟩
    intro i h1 h2
    exact absurd h1 (Nat.not_lt_zero i)
  | cons e rest ih =>
    unfold tabsOfContexts at h
    rcases he : tabOfContext port e with err | t
    · rw [he] at h
      exact Except.noConfusion h
    · rw [he] at h
      dsimp only at h
      rcases hr : tabsOfContexts port rest with err2 | ts2
      · rw [hr] at h
        exact Except.noConfusion h
      · rw [hr] at h
        simp at h
        subst h
        obtain ⟨hlen, hidx⟩ := ih ts2 hr
        refine ⟨by simp [hlen], ?_⟩
        intro i h1 h2
        cases i with
        | zero =>
          obtain ⟨hp, fields, hf, hcx, hux⟩ := tabOfContext_spec port e t he
          exact ⟨hp, fields, hf, hcx, hux⟩
        | succ n =>
          exact hidx n (Nat.lt_of_succ_lt_succ h1) (Nat.lt_of_succ_lt_succ h2)

/-- Navigation half of the tab update discipline: an absent result
leaves the tab unchanged and reports failure, and any returned pair
preserves port and identifier, changes nothing on failure, and on
success stores exactly the url field of the decoded reply. -/
theorem navigate_update_discipline (t : Tab) (u : String) (replies : List Reply) :
    ((execute t.port "browsingContext.navigate" (some (navParams t u))
        replies).result = .ok none → Tab.navigate t u replies = .ok (false, t)) ∧
    (∀ b t2, Tab.navigate t u replies = .ok (b, t2) →
      t2.port = t.port ∧ t2.id = t.id ∧
      (b = false → t2 = t) ∧
      (b = true → ∃ fields v,
        (execute t.port "browsingContext.navigate" (some (navParams t u))
          replies).result = .ok (some (.obj fields)) ∧
        lookupFields fields "url" = some v ∧ t2.url = v)) := by
  constructor
  · intro h
    unfold Tab.navigate
    rw [h]
  · intro b t2 hnav
    unfold Tab.navigate at hnav
    rcases hr : (execute t.port "browsingContext.navigate" (some (navParams t u))
        replies).result with e | o
    · rw [hr] at hnav
      exact Except.noConfusion hnav
    · cases o with
      | none =>
        rw [hr] at hnav
        simp at hnav
        obtain ⟨hb, ht⟩ := hnav
        subst hb
        subst ht
        exact ⟨rfl, rfl, fun _ => rfl, fun hc => by cases hc⟩
      | some j =>
        rw [hr] at hnav
        dsimp only at hnav
        rcases hpt : pyTruthy j with _ | _
        · simp only [hpt, Bool.false_eq_true, if_false] at hnav
          simp at hnav
          obtain ⟨hb, ht⟩ := hnav
          subst hb
          subst ht
          exact ⟨rfl, rfl, fun _ => rfl, fun hc => by cases hc⟩
        · simp only [hpt, if_true] at hnav
          cases j with
          | obj fields =>
            dsimp only at hnav
            rcases hu : lookupFields fields "url" with _ | v
            · rw [hu] at hnav
              exact Except.noConfusion hnav
            · rw [hu] at hnav
              simp at hnav
              obtain ⟨hb, ht⟩ := hnav
              subst hb
              subst ht
              refine ⟨rfl, rfl, ?_, ?_⟩
              · intro hc
                cases hc
              · intro hc
                exact ⟨fields, v, rfl, hu, rfl⟩
          | null => simp at hnav
          | bool bb => simp at hnav
          | num n => simp at hnav
          | str s => simp at hnav
          | arr xs => simp at hnav

/-- Reload half of the tab update discipline, the same property for the
reload operation. -/
theorem reload_update_discipline (t : Tab) (replies : List Reply) :
    ((execute t.port "browsingContext.reload" (some (reloadParams t))
        replies).result = .ok none → Tab.reload t replies = .ok (false, t)) ∧
    (∀ b t2, Tab.reload t replies = .ok (b, t2) →
      t2.port = t.port ∧ t2.id = t.id ∧
      (b = false → t2 = t) ∧
      (b = true → ∃ fields v,
        (execute t.port "browsingContext.reload" (some (reloadParams t))
          replies).result = .ok (some (.obj fields)) ∧
        lookupFields fields "url" = some v ∧ t2.url = v)) := by
  constructor
  · intro h
    unfold Tab.reload
    rw [h]
  · intro b t2 hnav
    unfold Tab.reload at hnav
    rcases hr : (execute t.port "browsingContext.reload" (some (reloadParams t))
        replies).result with e | o
    · rw [hr] at hnav
      exact Except.noConfusion hnav
    · cases o with
      | none =>
        rw [hr] at hnav
        simp at hnav
        obtain ⟨hb, ht⟩ := hnav
        subst hb
        subst ht
        exact ⟨rfl, rfl, fun _ => rfl, fun hc => by cases hc⟩
      | some j =>
        rw [hr] at hnav
        dsimp only at hnav
        rcases hpt : pyTruthy j with _ | _
        · simp only [hpt, Bool.false_eq_true, if_false] at hnav
          simp at hnav
          obtain ⟨hb, ht⟩ := hnav
          subst hb
          subst ht
          exact ⟨rfl, rfl, fun _ => rfl, fun hc => by cases hc⟩
        · simp only [hpt, if_true] at hnav
          cases j with
          | obj fields =>
            dsimp only at hnav
            rcases hu : lookupFields fields "url" with _ | v
            · rw [hu] at hnav
              exact Except.noConfusion hnav
            · rw [hu] at hnav
              simp at hnav
              obtain ⟨hb, ht⟩ := hnav
              subst hb
              subst ht
              refine ⟨rfl, rfl, ?_, ?_⟩
              · intro hc
                cases hc
              · intro hc
                exact ⟨fields, v, rfl, hu, rfl⟩
          | null => simp at hnav
          | bool bb => simp at hnav
          | num n => simp at hnav
          | str s => simp at hnav
          | arr xs => simp at hnav

/-- C1: when the reply to the invoked method is a well-formed success
envelope carrying result R and session creation and termination
succeed, execute returns exactly R, unaltered. -/
theorem execute_success_returns_result_verbatim (port : Nat) (method : String)
    (params : Option Json) (r endRes : Json) :
    (execute port method params
      [newOkReply, successEnv r, successEnv endRes]).result = .ok (some r) := rfl

/-- C2 counterexample: a reply to the method that is not valid JSON
makes execute raise a decode error instead of returning the absence
marker. -/
theorem execute_malformed_reply_raises :
    (execute 1 "browsingContext.getTree" none
      [newOkReply, .malformed, endOkReply]).result = .error .jsonDecodeError ∧
    (execute 1 "browsingContext.getTree" none
      [newOkReply, .malformed, endOkReply]).result ≠ .ok none := by
  refine ⟨rfl, ?_⟩
  intro hc
  rw [show (execute 1 "browsingContext.getTree" none
    [newOkReply, .malformed, endOkReply]).result =
      .error .jsonDecodeError from rfl] at hc
  exact Except.noConfusion hc

/-- C2 amended: a well-formed error envelope reply yields the absence
marker and a log record with the error kind and message; a reply whose
discriminator is neither success nor error yields the absence marker
with no log record; a reply that is not valid JSON raises a decode
error. -/
theorem execute_error_and_malformed_replies (port : Nat) (method : String)
    (params : Option Json) (k m : String) :
    (execute port method params
      [newOkReply, errorEnv k m, endOkReply]).result = .ok none ∧
    (execute port method params
      [newOkReply, errorEnv k m, endOkReply]).logs = [(.str k, .str m)] ∧
    (execute port method params
      [newOkReply, weirdReply, endOkReply]).result = .ok none ∧
    (execute port method params
      [newOkReply, weirdReply, endOkReply]).logs = [] ∧
    (execute port method params
      [newOkReply, .malformed, endOkReply]).result = .error .jsonDecodeError :=
  ⟨rfl, rfl, rfl, rfl, rfl⟩

/-- C3: when session creation receives an error envelope or no usable
result, and when session termination receives an error envelope or no
usable result, execute fails with an assertion failure and returns no
normal result. -/
theorem lifecycle_failure_is_fatal_assertion (port : Nat) (method : String)
    (params : Option Json) (k m : String) (r : Json) (rest : List Reply) :
    (execute port method params (errorEnv k m :: rest)).result =
      .error .assertionError ∧
    (execute port method params (.empty :: rest)).result =
      .error .assertionError ∧
    (execute port method params
      [newOkReply, successEnv r, errorEnv k m]).result = .error .assertionError ∧
    (execute port method params
      [newOkReply, successEnv r, .empty]).result = .error .assertionError :=
  ⟨rfl, rfl, rfl, rfl⟩

/-- C4 counterexample: the entry point takes no host argument and the
URL host is written as localhost; a call with port 9222 connects to
ws://localhost:9222/session, not to any caller-chosen host. -/
theorem execute_host_is_fixed_localhost :
    (execute 9222 "browsingContext.getTree" none []).url =
      "ws://localhost:9222/session" ∧
    (execute 9222 "browsingContext.getTree" none []).url ≠
      "ws://example.com:9222/session" := by
  refine ⟨rfl, ?_⟩
  decide

/-- C4 amended: only the port is caller-chosen; every call connects to
ws://localhost:port/session with the host fixed to localhost. -/
theorem execute_url_localhost_with_caller_port (port : Nat) (method : String)
    (params : Option Json) (replies : List Reply) :
    (execute port method params replies).url =
      "ws://localhost:" ++ toString port ++ "/session" := rfl

/-- C6: the outbound command envelope always carries the fixed
identifier 1, the method string and the parameters mapping verbatim,
and an omitted parameters argument becomes the empty mapping. -/
theorem makeCommand_envelope_shape (method : String) (l : List (String × Json)) :
    makeCommand method (some (.obj l)) =
      .obj [("id", .num 1), ("method", .str method), ("params", .obj l)] ∧
    makeCommand method none =
      .obj [("id", .num 1), ("method", .str method), ("params", .obj [])] := by
  refine ⟨?_, rfl⟩
  cases l with
  | nil => rfl
  | cons a rest => rfl

/-- C7: encoding a command whose parameters map context to abc and url
to https://x, then decoding the matching success envelope, yields the
result mapping url to https://x. -/
theorem encode_decode_round_trip :
    (sendCommand ⟨[successEnv (.obj [("url", .str "https://x")])], [], []⟩
      "browsingContext.navigate"
      (some (.obj [("context", .str "abc"), ("url", .str "https://x")]))).1 =
      .ok (some (.obj [("url", .str "https://x")])) ∧
    (sendCommand ⟨[successEnv (.obj [("url", .str "https://x")])], [], []⟩
      "browsingContext.navigate"
      (some (.obj [("context", .str "abc"), ("url", .str "https://x")]))).2.sent =
      [makeCommand "browsingContext.navigate"
        (some (.obj [("context", .str "abc"), ("url", .str "https://x")]))] :=
  ⟨rfl, rfl⟩

/-- C8: the create-then-navigate scenario: creating a tab against a
server answering with context ctx-1 yields that context in the result
and a tab with that identifier, and navigating that tab against a
server answering with url https://example.com sets the tracked URL to
https://example.com and reports success. -/
theorem create_tab_navigate_scenario :
    (execute 9222 "browsingContext.create" (some (.obj [("type", .str "tab")]))
      [newOkReply, successEnv (.obj [("context", .str "ctx-1")]),
        endOkReply]).result =
      .ok (some (.obj [("context", .str "ctx-1")])) ∧
    Browser.create_tab 9222
      [newOkReply, successEnv (.obj [("context", .str "ctx-1")]), endOkReply] =
      .ok (some ⟨9222, .str "ctx-1", .str ""⟩) ∧
    Tab.navigate ⟨9222, .str "ctx-1", .str ""⟩ "https://example.com"
      [newOkReply, successEnv (.obj [("url", .str "https://example.com")]),
        endOkReply] =
      .ok (true, ⟨9222, .str "ctx-1", .str "https://example.com"⟩) :=
  ⟨rfl, rfl, rfl⟩

/-- C5 counterexample: when session creation fails, the requested
method is never sent, so a call does not always perform exactly one
invocation of the requested method. -/
theorem method_not_sent_when_session_creation_fails :
    (execute 1 "browsingContext.navigate" none [errorEnv "boom" "bad"]).sent =
      [makeCommand "session.new" (some capsParams)] ∧
    ¬ makeCommand "browsingContext.navigate" none ∈
      (execute 1 "browsingContext.navigate" none [errorEnv "boom" "bad"]).sent := by
  refine ⟨rfl, ?_⟩
  rw [show (execute 1 "browsingContext.navigate" none [errorEnv "boom" "bad"]).sent =
    [makeCommand "session.new" (some capsParams)] from rfl]
  simp [makeCommand, capsParams]

/-- C5 amended: every call sends, in order, a prefix of the sequence
session.new, the requested method, session.end: either session
creation fails and only session.new was sent, or exactly that
three-command sequence is sent; when the call returns a result, the
full sequence was sent. The method is thus never sent more than once,
never before session.new and never after session.end. -/
theorem execute_sent_command_sequence (port : Nat) (method : String)
    (params : Option Json) (replies : List Reply) :
    ((execute port method params replies).sent =
        [makeCommand "session.new" (some capsParams)] ∨
      (execute port method params replies).sent =
        [makeCommand "session.new" (some capsParams), makeCommand method params,
          makeCommand "session.end" (some (.obj []))]) ∧
    ∀ res, (execute port method params replies).result = .ok res →
      (execute port method params replies).sent =
        [makeCommand "session.new" (some capsParams), makeCommand method params,
          makeCommand "session.end" (some (.obj []))] :=
  ⟨executeCore_sent_cases method params replies,
    fun res h => executeCore_ok_sent method params replies res h⟩

/-- C5 witness: a successful run sends exactly session.new, the method,
session.end. -/
theorem execute_sent_command_sequence_witness :
    (execute 1 "browsingContext.getTree" none
      [newOkReply, successEnv (.obj []), endOkReply]).sent =
      [makeCommand "session.new" (some capsParams),
        makeCommand "browsingContext.getTree" none,
        makeCommand "session.end" (some (.obj []))] :=
  (execute_sent_command_sequence 1 "browsingContext.getTree" none
    [newOkReply, successEnv (.obj []), endOkReply]).2 (some (.obj [])) rfl

/-- C9 counterexample: a reply to the navigation method that is not
valid JSON makes navigate raise a decode error rather than yield the
absence marker and a False return. -/
theorem navigate_malformed_reply_raises :
    Tab.navigate ⟨1, .str "c", .str "old"⟩ "https://x"
      [newOkReply, .malformed, endOkReply] = .error .jsonDecodeError ∧
    Tab.navigate ⟨1, .str "c", .str "old"⟩ "https://x"
      [newOkReply, .malformed, endOkReply] ≠
      .ok (false, ⟨1, .str "c", .str "old"⟩) := by
  refine ⟨rfl, ?_⟩
  intro hc
  rw [show Tab.navigate ⟨1, .str "c", .str "old"⟩ "https://x"
    [newOkReply, .malformed, endOkReply] = .error .jsonDecodeError from rfl] at hc
  exact Except.noConfusion hc

/-- C9 amended: whenever navigate or reload receives the absence marker
from execute (error envelope, unrecognized discriminator, or empty
reply; a reply that is not valid JSON instead raises), the method
returns False with every tab field unchanged; any returned pair
preserves port and identifier, and the tracked URL is only overwritten
on a successful reply, and then only with the url value of that
reply. -/
theorem navigate_reload_effects (t : Tab) (u : String) (replies : List Reply) :
    (((execute t.port "browsingContext.navigate" (some (navParams t u))
        replies).result = .ok none → Tab.navigate t u replies = .ok (false, t)) ∧
      ∀ b t2, Tab.navigate t u replies = .ok (b, t2) →
        t2.port = t.port ∧ t2.id = t.id ∧
        (b = false → t2 = t) ∧
        (b = true → ∃ fields v,
          (execute t.port "browsingContext.navigate" (some (navParams t u))
            replies).result = .ok (some (.obj fields)) ∧
          lookupFields fields "url" = some v ∧ t2.url = v)) ∧
    (((execute t.port "browsingContext.reload" (some (reloadParams t))
        replies).result = .ok none → Tab.reload t replies = .ok (false, t)) ∧
      ∀ b t2, Tab.reload t replies = .ok (b, t2) →
        t2.port = t.port ∧ t2.id = t.id ∧
        (b = false → t2 = t) ∧
        (b = true → ∃ fields v,
          (execute t.port "browsingContext.reload" (some (reloadParams t))
            replies).result = .ok (some (.obj fields)) ∧
          lookupFields fields "url" = some v ∧ t2.url = v)) :=
  ⟨navigate_update_discipline t u replies, reload_update_discipline t replies⟩

/-- C9 witness: with an empty reply to the method, navigate returns
False and leaves the tab exactly as it was. -/
theorem navigate_reload_effects_witness :
    Tab.navigate ⟨1, .str "c", .str "old"⟩ "https://x"
      [newOkReply, .empty, endOkReply] = .ok (false, ⟨1, .str "c", .str "old"⟩) :=
  (navigate_reload_effects ⟨1, .str "c", .str "old"⟩ "https://x"
    [newOkReply, .empty, endOkReply]).1.1 rfl

/-- C10: the tab listing returns the empty list when execute yields the
absence marker or a falsy result, and otherwise yields one tab per
entry of the contexts list of the reply, in the same order, each
carrying that entry's context identifier, that entry's url, and the
port of the browser. -/
theorem get_tabs_empty_on_absence_and_maps_contexts (port : Nat) (replies : List Reply) :
    ((execute port "browsingContext.getTree" (some (.obj [("maxDepth", .num 1)]))
        replies).result = .ok none → Browser.get_tabs port replies = .ok []) ∧
    (∀ j, (execute port "browsingContext.getTree" (some (.obj [("maxDepth", .num 1)]))
        replies).result = .ok (some j) → pyTruthy j = false →
      Browser.get_tabs port replies = .ok []) ∧
    (∀ fields es ts,
      (execute port "browsingContext.getTree" (some (.obj [("maxDepth", .num 1)]))
        replies).result = .ok (some (.obj fields)) →
      pyTruthy (.obj fields) = true →
      lookupFields fields "contexts" = some (.arr es) →
      tabsOfContexts port es = .ok ts →
      Browser.get_tabs port replies = .ok ts ∧
      ts.length = es.length ∧
      ∀ i (h1 : i < es.length) (h2 : i < ts.length),
        (ts.get ⟨i, h2⟩).port = port ∧
        ∃ efields, es.get ⟨i, h1⟩ = .obj efields ∧
          lookupFields efields "context" = some (ts.get ⟨i, h2⟩).id ∧
          lookupFields efields "url" = some (ts.get ⟨i, h2⟩).url) := by
  refine ⟨?_, ?_, ?_⟩
  · intro h
    unfold Browser.get_tabs
    rw [h]
  · intro j h hpt
    unfold Browser.get_tabs
    rw [h]
    dsimp only
    simp only [hpt, Bool.false_eq_true, if_false]
  · intro fields es ts h hpt hcx hts
    refine ⟨?_, tabsOfContexts_spec port es ts hts⟩
    unfold Browser.get_tabs
    rw [h]
    dsimp only
    simp only [hpt, if_true]
    rw [hcx]
    dsimp only [pyIter]
    rw [hts]

/-- C10 witness: two context entries yield two tabs in order, each with
its entry's identifier and url and the port of the browser. -/
theorem get_tabs_two_contexts_witness :
    Browser.get_tabs 7 [newOkReply, successEnv (.obj [("contexts", .arr
      [.obj [("context", .str "c1"), ("url", .str "u1")],
        .obj [("context", .str "c2"), ("url", .str "u2")]])]), endOkReply] =
      .ok [⟨7, .str "c1", .str "u1"⟩, ⟨7, .str "c2", .str "u2"⟩] :=
  ((get_tabs_empty_on_absence_and_maps_contexts 7
    [newOkReply, successEnv (.obj [("contexts", .arr
      [.obj [("context", .str "c1"), ("url", .str "u1")],
        .obj [("context", .str "c2"), ("url", .str "u2")]])]), endOkReply]).2.2
    [("contexts", .arr [.obj [("context", .str "c1"), ("url", .str "u1")],
      .obj [("context", .str "c2"), ("url", .str "u2")]])]
    [.obj [("context", .str "c1"), ("url", .str "u1")],
      .obj [("context", .str "c2"), ("url", .str "u2")]]
    [⟨7, .str "c1", .str "u1"⟩, ⟨7, .str "c2", .str "u2"⟩]
    rfl rfl rfl rfl).1

end Webdriverless
